import Mathlib

/-!
Verification of the control loop in src/Docs/main.py (class Game): event
routing in handle_events, the interact-key outcome messaging, the
nearby-building scan, placement-click feedback, pause toggling, and the
per-tick update gate.

The collaborating modules (game.player, game.world, game.ui,
game.resource_manager) are not part of the sources; their state is carried
abstractly inside the game state and the entry points that main.py invokes
on them are modelled from the specification where noted.  External calls
whose internals are out of scope (player.interact, player.move,
player.switch_ship, player.handle_mouse_movement, world.update,
resource_manager.update, ui.handle_mouse_click forwarding) are recorded as
an effect trace emitted by each step, so that claims about which external
call happens, how often, and in which order can be stated.

The specification presents the user-facing strings of the code in English;
the code emits German strings.  Throughout this development the English
names of the spec denote the literal code strings: the building types
Market, Refinery, OilPlatform, CobaltEnrichment are the code strings
"Markt", "Raffinerie", "Ölplattform", "Kobaltanreicherung"; the messages
"nothing nearby", "resources sold", "no building nearby",
"cannot place building here", and so on are "Nichts in der Nähe!",
"Ressourcen verkauft!", "Kein Gebäude in der Nähe",
"Gebäude kann hier nicht platziert werden"; and the severities Info,
Success, Warning, Error are the code strings "info", "success", "warning",
"error".
-/

namespace FirstPersonRTS

/-- A feedback message (spec section 3 FeedbackMessage): text, severity
string as passed to UI.add_feedback_message, and remaining lifetime. -/
structure FeedbackMessage where
  text : String
  ftype : String
  lifetime : ℚ
deriving DecidableEq

/-- Modelled from the spec: section 4.5, push appends with a fixed default
lifetime (the implementation constant; the spec suggests 3 seconds). -/
def FEEDBACK_LIFETIME : ℚ := 3

/-- The kind tag of an entry of player.nearby_objects: the code compares
obj["type"] with "resource" and "building" (main.py lines 107, 110, 123,
126). -/
inductive ObjKind
  | resource
  | building
deriving DecidableEq

/-- An entry of player.nearby_objects as read by main.py: its kind tag and
the type string of the underlying object (obj["object"].type). -/
structure NearbyObj where
  kind : ObjKind
  objType : String
deriving DecidableEq

/-- A building as read by main.py: planar position and type string. -/
structure Building where
  x : ℝ
  z : ℝ
  btype : String

/-- The world state as consumed by main.py: its building list, and the
oracle for the validity of the next placement attempt (spec section 6,
validatePlacement is delegated to the World). -/
structure WorldSt where
  buildings : List Building
  placement_ok : Bool

/-- The player state as consumed by main.py: planar position, the
nearby-objects list (recomputed externally), and the oracle for the boolean
result of the next player.interact() call (spec section 6). -/
structure PlayerSt where
  x : ℝ
  z : ℝ
  nearby_objects : List NearbyObj
  interact_result : Bool

/-- The UI-layer state as read and written by main.py: the four panel
flags, the pending and selected building types, the building bound to the
interaction panel, the feedback-message list, and the cursor position. -/
structure UIState where
  building_menu_open : Bool
  building_mode : Bool
  ship_inventory_open : Bool
  building_interaction_open : Bool
  building_type_to_place : Option String
  selected_building_type : Option String
  interaction_building : Option Building
  messages : List FeedbackMessage
  cursor_pos : ℤ × ℤ

/-- The state owned by class Game (main.py lines 11-44) together with the
abstract collaborator states. -/
structure GameSt where
  game_state : String
  running : Bool
  dt : ℚ
  mouse_visible : Bool
  mouse_grab : Bool
  world : WorldSt
  player : PlayerSt
  ui : UIState

/-- The keys main.py distinguishes in KEYDOWN events. -/
inductive Key
  | escape
  | k1
  | k2
  | k3
  | space
  | i
  | b
  | e
  | otherKey
deriving DecidableEq

/-- The pygame event types main.py distinguishes; MOUSEBUTTONDOWN carries
event.button, MOUSEMOTION carries event.rel. -/
inductive Event
  | quit
  | keyDown (k : Key)
  | mouseButtonDown (button : Nat)
  | mouseMotion (rel : ℤ × ℤ)
  | otherEvent

/-- Trace entries for the external calls main.py makes on its
collaborators.  readNearby marks the point where player.nearby_objects is
first examined in the interact handler (main.py line 104). -/
inductive Effect
  | playerInteract
  | readNearby
  | switchShip (i : Nat)
  | uiClick (pos : ℤ × ℤ) (button : Nat)
  | mouseMove (rel : ℤ × ℤ)
  | playerMove
  | worldUpdate
  | resourceUpdate
deriving DecidableEq

/-- Modelled from the spec: UI.toggle_building_menu (game.ui is not under
the sources); section 4.1, a menu-toggle key flips exactly one UI flag. -/
def toggle_building_menu (u : UIState) : UIState :=
  { u with building_menu_open := !u.building_menu_open }

/-- Modelled from the spec: UI.toggle_ship_inventory (game.ui is not under
the sources); flips the ShipInventoryOpen flag. -/
def toggle_ship_inventory (u : UIState) : UIState :=
  { u with ship_inventory_open := !u.ship_inventory_open }

/-- Modelled from the spec: UI.toggle_building_interaction (game.ui is not
under the sources); section 4.1, on a hit the BuildingInteractionOpen panel
opens bound to that building. -/
def toggle_building_interaction (u : UIState) (b : Building) : UIState :=
  { u with building_interaction_open := true, interaction_building := some b }

/-- Modelled from the spec: UI.add_feedback_message (game.ui is not under
the sources); section 4.5, push appends a message with the fixed default
lifetime, preserving insertion order. -/
def add_feedback_message (u : UIState) (text ftype : String) : UIState :=
  { u with messages := u.messages ++ [⟨text, ftype, FEEDBACK_LIFETIME⟩] }

/-- Modelled from the spec: UI.update_feedback_messages (game.ui is not
under the sources); section 4.5, tick decrements every lifetime by dt and
removes the messages whose lifetime reached zero or below, preserving the
relative order of the survivors. -/
def update_feedback_messages (u : UIState) (dt : ℚ) : UIState :=
  let decayed := u.messages.map (fun m => { m with lifetime := m.lifetime - dt })
  { u with messages := decayed.filter (fun m => 0 < m.lifetime) }

/-- Modelled from the spec: UI.handle_mouse_click (game.ui is not under
the sources); section 6, its boolean result means the click was consumed by
a panel (it is only ever invoked while a panel flag is active); section
4.4, a click in placement mode clears BuildingMode and the pending type
exactly when the World validates the position and leaves both untouched
otherwise, this state change being its only observable effect. -/
def handle_mouse_click (w : WorldSt) (u : UIState) (mpos : ℤ × ℤ)
    (button : Nat) : Bool × UIState :=
  if u.building_mode then
    if w.placement_ok then
      (true, { u with building_mode := false, building_type_to_place := none })
    else (true, u)
  else (true, u)

/-- Planar (x, z) Euclidean distance of main.py lines 87-88; the Python
power 0.5 is the real square root. -/
noncomputable def bdist (px pz : ℝ) (b : Building) : ℝ :=
  Real.sqrt ((px - b.x) ^ 2 + (pz - b.z) ^ 2)

/-- The nearest-building scan of main.py lines 82-92: a linear pass that
keeps the first strictly closer building lying strictly within 50 units.
The initial min_distance of float infinity is represented by the none
accumulator, every finite distance comparing below it. -/
noncomputable def findNearest (px pz : ℝ) :
    List Building → Option (Building × ℝ) → Option (Building × ℝ)
  | [], best => best
  | b :: rest, best =>
      findNearest px pz rest
        (match best with
         | none =>
             if bdist px pz b < 50 then some (b, bdist px pz b) else none
         | some q =>
             if bdist px pz b < q.2 ∧ bdist px pz b < 50 then
               some (b, bdist px pz b)
             else some q)

/-- Python str() of an optional string, as an f-string renders it. -/
def pyStr : Option String → String
  | some t => t
  | none => "None"

/-- The interact-key feedback dispatch of main.py lines 104-139: branches
on whether the nearby list is nonempty, on the interact() result, on the
kind tag of the nearest object, and on its type string.  The
resource-with-success branch is the documented dead branch (main.py lines
107-109) and adds no message. -/
def interactFeedback (r : Bool) (nearby : List NearbyObj) (u : UIState) :
    UIState :=
  match nearby with
  | obj :: _ =>
      if r then
        match obj.kind with
        | ObjKind.resource => u
        | ObjKind.building =>
            if obj.objType = "Markt" then
              add_feedback_message u "Ressourcen verkauft!" "success"
            else if obj.objType = "Raffinerie" then
              add_feedback_message u "Öl zu Kraftstoff verarbeitet!" "success"
            else if obj.objType = "Ölplattform" then
              add_feedback_message u "Öl abgeholt!" "success"
            else if obj.objType = "Kobaltanreicherung" then
              add_feedback_message u "Kobalt verarbeitet!" "success"
            else
              add_feedback_message u ("Mit " ++ obj.objType ++ " interagiert!")
                "success"
      else
        match obj.kind with
        | ObjKind.resource =>
            add_feedback_message u
              ("Benötige Gebäude für " ++ obj.objType ++ "!") "error"
        | ObjKind.building =>
            if obj.objType = "Markt" then
              add_feedback_message u "Keine Ressourcen zum Verkaufen!" "warning"
            else if obj.objType = "Raffinerie" then
              add_feedback_message u "Benötige Öl im Frachtraum!" "warning"
            else if obj.objType = "Ölplattform" then
              add_feedback_message u "Frachtraum voll!" "warning"
            else if obj.objType = "Kobaltanreicherung" then
              add_feedback_message u "Benötige Kobalt im Frachtraum!" "warning"
            else
              add_feedback_message u "Interaktion nicht möglich!" "error"
  | [] => add_feedback_message u "Nichts in der Nähe!" "info"

/-- The placement feedback block of main.py lines 147-160, applied to the
returned boolean and the UI state after ui.handle_mouse_click: under
clicked_result and building_mode (line 148) it emits the success message
when the mode flag is clear and no type is pending (lines 153-157) and the
error message when clicked_result is false (lines 158-160). -/
def placementFeedback (clicked_result : Bool) (u : UIState) : UIState :=
  if clicked_result && u.building_mode then
    if !u.building_mode && u.building_type_to_place.isNone then
      let u1 := add_feedback_message u
        (pyStr u.selected_building_type ++ " platziert!") "success"
      { u1 with selected_building_type := none }
    else if !clicked_result then
      add_feedback_message u "Gebäude kann hier nicht platziert werden" "error"
    else u
  else u

/-- The ESC branch of main.py lines 53-61: toggles playing and paused and
sets mouse visibility and grab accordingly. -/
def escStep (s : GameSt) (k : Key) : GameSt :=
  if k = Key.escape then
    if s.game_state = "playing" then
      { s with game_state := "paused", mouse_visible := true,
               mouse_grab := false }
    else
      { s with game_state := "playing", mouse_visible := false,
               mouse_grab := true }
  else s

/-- The playing-mode key chain of main.py lines 64-139.  It runs on the
state the ESC branch may just have produced, mirroring that line 64 reads
self.game_state after the ESC branch mutated it. -/
noncomputable def playingKeys (s : GameSt) (k : Key) : GameSt × List Effect :=
  if s.game_state = "playing" then
    match k with
    | Key.k1 => (s, [Effect.switchShip 0])
    | Key.k2 => (s, [Effect.switchShip 1])
    | Key.k3 => (s, [Effect.switchShip 2])
    | Key.space => ({ s with ui := toggle_building_menu s.ui }, [])
    | Key.i => ({ s with ui := toggle_ship_inventory s.ui }, [])
    | Key.b =>
        match findNearest s.player.x s.player.z s.world.buildings none with
        | some q => ({ s with ui := toggle_building_interaction s.ui q.1 }, [])
        | none =>
            let u2 := add_feedback_message s.ui "Kein Gebäude in der Nähe" "warning"
            ({ s with ui := u2 }, [])
    | Key.e =>
        let u2 := interactFeedback s.player.interact_result s.player.nearby_objects s.ui
        ({ s with ui := u2 }, [Effect.playerInteract, Effect.readNearby])
    | _ => (s, [])
  else (s, [])

/-- KEYDOWN handling of main.py lines 52-139: the ESC branch followed by
the playing-gated key chain. -/
noncomputable def handleKeyDown (s : GameSt) (k : Key) : GameSt × List Effect :=
  playingKeys (escStep s k) k

/-- MOUSEBUTTONDOWN handling of main.py lines 142-160: forwarded to the UI
layer only while playing with some panel flag active, then the placement
feedback block runs on the click result. -/
def handleMouseButton (s : GameSt) (mpos : ℤ × ℤ) (button : Nat) :
    GameSt × List Effect :=
  if s.game_state = "playing" ∧
      (s.ui.building_menu_open ∨ s.ui.building_mode ∨
        s.ui.ship_inventory_open ∨ s.ui.building_interaction_open) then
    let r := handle_mouse_click s.world s.ui mpos button
    ({ s with ui := placementFeedback r.1 r.2 },
     [Effect.uiClick mpos button])
  else (s, [])

/-- MOUSEMOTION handling of main.py lines 162-164: forwarded to the camera
only while playing with none of the three blocking panels open. -/
def handleMouseMotion (s : GameSt) (rel : ℤ × ℤ) : GameSt × List Effect :=
  if s.game_state = "playing" ∧
      ¬ (s.ui.building_menu_open ∨ s.ui.ship_inventory_open ∨
          s.ui.building_interaction_open) then
    (s, [Effect.mouseMove rel])
  else (s, [])

/-- Processing of one pygame event by Game.handle_events (main.py lines
47-167); mpos is the ambient pygame.mouse.get_pos(), written to the UI
cursor position for every event (line 167). -/
noncomputable def step (s : GameSt) (e : Event) (mpos : ℤ × ℤ) :
    GameSt × List Effect :=
  let r :=
    match e with
    | Event.quit => ({ s with running := false }, ([] : List Effect))
    | Event.keyDown k => handleKeyDown s k
    | Event.mouseButtonDown button => handleMouseButton s mpos button
    | Event.mouseMotion rel => handleMouseMotion s rel
    | Event.otherEvent => (s, [])
  ({ r.1 with ui := { r.1.ui with cursor_pos := mpos } }, r.2)

/-- Processing of a sequence of events, each with its ambient mouse
position. -/
noncomputable def run (s : GameSt) : List (Event × ℤ × ℤ) → GameSt
  | [] => s
  | em :: rest => run (step s em.1 em.2).1 rest

/-- The initial UI state.  Modelled from the spec: section 4.1, the state
is initialized at game start with all flags cleared (game.ui is not under
the sources). -/
def uiInit : UIState :=
  { building_menu_open := false, building_mode := false,
    ship_inventory_open := false, building_interaction_open := false,
    building_type_to_place := none, selected_building_type := none,
    interaction_building := none, messages := [], cursor_pos := (0, 0) }

/-- The initial game state of Game.__init__ (main.py lines 11-44): mode
playing, running, dt zero, mouse hidden and grabbed.  World and Player
construction lives in external modules, so both are parameters. -/
def gameInit (w : WorldSt) (p : PlayerSt) : GameSt :=
  { game_state := "playing", running := true, dt := 0,
    mouse_visible := false, mouse_grab := true,
    world := w, player := p, ui := uiInit }

/-- The per-tick update of Game.update (main.py lines 169-189); dtv is the
measured frame delta (self.clock.tick(60) / 1000).  The external
player.move, world.update and resource_manager.update calls are recorded as
effects; the feedback decay is the modelled UI tick. -/
def update (s : GameSt) (dtv : ℚ) : GameSt × List Effect :=
  let s1 : GameSt := { s with dt := dtv }
  if s1.game_state = "playing" then
    ({ s1 with ui := update_feedback_messages s1.ui s1.dt },
     [Effect.playerMove, Effect.worldUpdate, Effect.resourceUpdate])
  else (s1, [])

/-- Modelled from the spec: the outcome table of section 4.3 as a function
of the nearest nearby object (none when the list is empty) and the
interact() success flag, under the English-to-code-string dictionary
described at the top of this file.  The dead Resource-with-success row
yields no message. -/
def specOutcomeTable (obj? : Option NearbyObj) (success : Bool) :
    Option (String × String) :=
  match obj? with
  | none => some ("Nichts in der Nähe!", "info")
  | some obj =>
      match obj.kind, success with
      | ObjKind.resource, true => none
      | ObjKind.resource, false =>
          some ("Benötige Gebäude für " ++ obj.objType ++ "!", "error")
      | ObjKind.building, true =>
          if obj.objType = "Markt" then some ("Ressourcen verkauft!", "success")
          else if obj.objType = "Raffinerie" then
            some ("Öl zu Kraftstoff verarbeitet!", "success")
          else if obj.objType = "Ölplattform" then
            some ("Öl abgeholt!", "success")
          else if obj.objType = "Kobaltanreicherung" then
            some ("Kobalt verarbeitet!", "success")
          else some ("Mit " ++ obj.objType ++ " interagiert!", "success")
      | ObjKind.building, false =>
          if obj.objType = "Markt" then
            some ("Keine Ressourcen zum Verkaufen!", "warning")
          else if obj.objType = "Raffinerie" then
            some ("Benötige Öl im Frachtraum!", "warning")
          else if obj.objType = "Ölplattform" then
            some ("Frachtraum voll!", "warning")
          else if obj.objType = "Kobaltanreicherung" then
            some ("Benötige Kobalt im Frachtraum!", "warning")
          else some ("Interaktion nicht möglich!", "error")

/-- The message list a table row contributes: empty for the dead row, a
single message with the default lifetime for every other row. -/
def tableMsgs (o : Option (String × String)) : List FeedbackMessage :=
  match o with
  | none => []
  | some ts => [⟨ts.1, ts.2, FEEDBACK_LIFETIME⟩]

/-- The capture invariant of the spec (section 3 GameMode): mouse capture
and visibility are the pure function of the mode. -/
def captureInv (s : GameSt) : Prop :=
  (s.game_state = "playing" → s.mouse_grab = true ∧ s.mouse_visible = false) ∧
  (s.game_state ≠ "playing" → s.mouse_grab = false ∧ s.mouse_visible = true)

/-- An empty world whose placement oracle accepts. -/
def wEmpty : WorldSt := { buildings := [], placement_ok := true }

/-- A player at the origin with nothing nearby. -/
noncomputable def pIdle : PlayerSt :=
  { x := 0, z := 0, nearby_objects := [], interact_result := false }

/-- A player whose nearest nearby object is a Market building and whose
next interact() succeeds. -/
noncomputable def pMarket : PlayerSt :=
  { x := 0, z := 0,
    nearby_objects := [⟨ObjKind.building, "Markt"⟩], interact_result := true }

/-- Concrete state for the interact-table witness. -/
noncomputable def sW1 : GameSt := gameInit wEmpty pMarket

/-- The UI state while a Refinery placement is pending. -/
def uiPlacement : UIState :=
  { uiInit with building_mode := true, building_type_to_place := some "Raffinerie", selected_building_type := some "Raffinerie" }

/-- Concrete state in placement mode over a world that rejects the next
placement. -/
noncomputable def sW2 : GameSt :=
  { gameInit { buildings := [], placement_ok := false } pIdle with ui := uiPlacement }

/-- Concrete state in placement mode over a world that accepts the next
placement. -/
noncomputable def sW3 : GameSt :=
  { gameInit wEmpty pIdle with ui := uiPlacement }

/-- Concrete state with no buildings, for the nearby-building witness. -/
noncomputable def sW4 : GameSt := gameInit wEmpty pIdle

/-- A building at planar distance exactly 50 from the origin. -/
noncomputable def cexBuilding : Building := { x := 50, z := 0, btype := "Markt" }

/-- Concrete state whose only building sits at distance exactly 50. -/
noncomputable def sC4 : GameSt :=
  gameInit { buildings := [cexBuilding], placement_ok := true } pIdle

/-- Concrete reachable state: the building menu is opened while playing,
then the game is paused; the menu flag survives the pause. -/
noncomputable def sC7 : GameSt :=
  run (gameInit wEmpty pIdle)
    [(Event.keyDown Key.space, (0, 0)), (Event.keyDown Key.escape, (0, 0))]

/-- Concrete state that is playing with only the building menu open. -/
noncomputable def sW7 : GameSt :=
  { gameInit wEmpty pIdle with
    ui := { uiInit with building_menu_open := true } }

/-- Concrete state that is playing with only placement mode active. -/
noncomputable def sW8 : GameSt :=
  { gameInit wEmpty pIdle with ui := { uiInit with building_mode := true } }

/-- Concrete paused state carrying one live feedback message. -/
noncomputable def sW9 : GameSt :=
  { gameInit wEmpty pIdle with
    game_state := "paused",
    ui := { uiInit with messages := [⟨"Frachtraum voll!", "warning", 2⟩] } }

theorem placementFeedback_id (r : Bool) (u : UIState) : placementFeedback r u = u := by
  unfold placementFeedback
  cases r with
  | false => simp
  | true => cases hb : u.building_mode <;> simp [hb]

/-- C2: for a pointer click in placement mode whose placement attempt fails,
the controller does remain in placement mode with its pending type intact
(modelled UI behavior), but the feedback-message list is unchanged: the
error branch of main.py line 158 sits under the line-148 guard requiring
clicked_result, so the Error message of the claim is never emitted. -/
theorem placement_click_invalid_keeps_mode_emits_nothing (s : GameSt)
    (mpos : ℤ × ℤ) (button : Nat)
    (h : s.game_state = "playing") (hm : s.ui.building_mode = true)
    (hv : s.world.placement_ok = false) :
    (step s (Event.mouseButtonDown button) mpos).1.ui.building_mode = true ∧
    (step s (Event.mouseButtonDown button) mpos).1.ui.building_type_to_place
      = s.ui.building_type_to_place ∧
    (step s (Event.mouseButtonDown button) mpos).1.ui.messages
      = s.ui.messages := by
  unfold step handleMouseButton handle_mouse_click
  simp [h, hm, hv, placementFeedback_id]

/-- C2 witness: the invalid-placement click at the concrete state sW2. -/
theorem placement_click_invalid_keeps_mode_emits_nothing_witness :
    sW2.game_state = "playing" ∧ sW2.ui.building_mode = true ∧
    sW2.world.placement_ok = false ∧
    ((step sW2 (Event.mouseButtonDown 1) (0, 0)).1.ui.building_mode = true ∧
     (step sW2 (Event.mouseButtonDown 1) (0, 0)).1.ui.building_type_to_place
       = sW2.ui.building_type_to_place ∧
     (step sW2 (Event.mouseButtonDown 1) (0, 0)).1.ui.messages
       = sW2.ui.messages) :=
  ⟨rfl, rfl, rfl,
    placement_click_invalid_keeps_mode_emits_nothing sW2 (0, 0) 1 rfl rfl rfl⟩

/-- C3: for a pointer click in placement mode whose placement attempt
succeeds, placement mode is exited and the pending type cleared (modelled
UI behavior), but the feedback-message list is unchanged: the success
branch of main.py line 153 requires building_mode to be false while its
enclosing line-148 guard requires it to be true, so the Success message of
the claim is never emitted. -/
theorem placement_click_valid_exits_mode_emits_nothing (s : GameSt)
    (mpos : ℤ × ℤ) (button : Nat)
    (h : s.game_state = "playing") (hm : s.ui.building_mode = true)
    (hv : s.world.placement_ok = true) :
    (step s (Event.mouseButtonDown button) mpos).1.ui.building_mode = false ∧
    (step s (Event.mouseButtonDown button) mpos).1.ui.building_type_to_place
      = none ∧
    (step s (Event.mouseButtonDown button) mpos).1.ui.messages
      = s.ui.messages := by
  unfold step handleMouseButton handle_mouse_click
  simp [h, hm, hv, placementFeedback_id]

/-- C3 witness: the valid-placement click at the concrete state sW3. -/
theorem placement_click_valid_exits_mode_emits_nothing_witness :
    sW3.game_state = "playing" ∧ sW3.ui.building_mode = true ∧
    sW3.world.placement_ok = true ∧
    ((step sW3 (Event.mouseButtonDown 1) (0, 0)).1.ui.building_mode = false ∧
     (step sW3 (Event.mouseButtonDown 1) (0, 0)).1.ui.building_type_to_place
       = none ∧
     (step sW3 (Event.mouseButtonDown 1) (0, 0)).1.ui.messages
       = sW3.ui.messages) :=
  ⟨rfl, rfl, rfl,
    placement_click_valid_exits_mode_emits_nothing sW3 (0, 0) 1 rfl rfl rfl⟩

/-- C9: whenever the mode is not playing, one tick of Game.update only
records the measured frame delta: the player movement, world and
resource-manager updates are not invoked (no effects), and the UI feedback
messages are not decayed, so the resulting state is the input state with
only dt replaced. -/
theorem paused_update_advances_nothing (s : GameSt) (dtv : ℚ)
    (h : s.game_state ≠ "playing") :
    update s dtv = ({ s with dt := dtv }, []) ∧
    (update s dtv).1.ui.messages = s.ui.messages ∧
    (update s dtv).2 = [] := by
  unfold update
  simp [h]

/-- C9 witness: a paused tick at the concrete state sW9 keeps its live
feedback message untouched. -/
theorem paused_update_advances_nothing_witness :
    sW9.game_state ≠ "playing" ∧
    (update sW9 (1/2)).1.ui.messages
      = [⟨"Frachtraum voll!", "warning", 2⟩] ∧
    (update sW9 (1/2)).2 = [] := by
  have h := paused_update_advances_nothing sW9 (1/2) (by decide)
  exact ⟨by decide, h.2.1.trans rfl, h.2.2⟩

/-- C8: a pointer-motion delta is forwarded to the camera handler exactly
when the mode is playing and none of the building-menu, ship-inventory and
building-interaction panels is open; placement mode alone does not block
it. -/
theorem mouse_motion_routing (s : GameSt) (mpos rel : ℤ × ℤ) :
    ((step s (Event.mouseMotion rel) mpos).2 = [Effect.mouseMove rel] ↔
      (s.game_state = "playing" ∧
        ¬ (s.ui.building_menu_open ∨ s.ui.ship_inventory_open ∨
            s.ui.building_interaction_open))) ∧
    (s.game_state = "playing" → s.ui.building_mode = true →
      s.ui.building_menu_open = false → s.ui.ship_inventory_open = false →
      s.ui.building_interaction_open = false →
      (step s (Event.mouseMotion rel) mpos).2 = [Effect.mouseMove rel]) := by
  unfold step handleMouseMotion
  constructor
  · by_cases h : s.game_state = "playing" ∧
      ¬ (s.ui.building_menu_open ∨ s.ui.ship_inventory_open ∨
          s.ui.building_interaction_open)
    · simp [h]
    · simp only [if_neg h]
      exact iff_of_false (by simp) h
  · intro h1 _ h3 h4 h5
    simp [h1, h3, h4, h5]

/-- C8 witness: at the concrete state sW8 (playing, only placement mode
active) the motion delta reaches the camera. -/
theorem mouse_motion_routing_witness :
    sW8.game_state = "playing" ∧ sW8.ui.building_mode = true ∧
    (step sW8 (Event.mouseMotion (3, 4)) (0, 0)).2
      = [Effect.mouseMove (3, 4)] :=
  ⟨rfl, rfl,
    (mouse_motion_routing sW8 (0, 0) (3, 4)).2 rfl rfl rfl rfl rfl⟩

/-- C7 (amended: the forwarding additionally requires the playing mode):
a pointer button-down event is forwarded to the UI click handler and
consumed exactly when the mode is playing and some of the four panel flags
is active; otherwise the router ignores it, and in no case does the camera
receive it. -/
theorem mouse_click_routing (s : GameSt) (mpos : ℤ × ℤ) (button : Nat) :
    ((s.game_state = "playing" ∧
        (s.ui.building_menu_open ∨ s.ui.building_mode ∨
          s.ui.ship_inventory_open ∨ s.ui.building_interaction_open)) →
      (step s (Event.mouseButtonDown button) mpos).2
        = [Effect.uiClick mpos button]) ∧
    (¬ (s.game_state = "playing" ∧
        (s.ui.building_menu_open ∨ s.ui.building_mode ∨
          s.ui.ship_inventory_open ∨ s.ui.building_interaction_open)) →
      (step s (Event.mouseButtonDown button) mpos).2 = [] ∧
      (step s (Event.mouseButtonDown button) mpos).1.ui.messages
        = s.ui.messages) ∧
    (∀ rel, Effect.mouseMove rel ∉
      (step s (Event.mouseButtonDown button) mpos).2) := by
  unfold step handleMouseButton
  by_cases h : s.game_state = "playing" ∧
      (s.ui.building_menu_open ∨ s.ui.building_mode ∨
        s.ui.ship_inventory_open ∨ s.ui.building_interaction_open)
  · simp [h]
  · simp [h]

/-- C7 counterexample: in the reachable state sC7 the building-menu flag is
active (it was opened while playing, then ESC paused the game), yet the
pointer button-down event is not forwarded to the UI click handler, against
the claim that any active flag suffices. -/
theorem mouse_click_routing_cex :
    sC7.ui.building_menu_open = true ∧
    sC7.game_state = "paused" ∧
    (step sC7 (Event.mouseButtonDown 1) (0, 0)).2 = [] ∧
    (step sC7 (Event.mouseButtonDown 1) (0, 0)).1.ui.messages
      = sC7.ui.messages := by
  refine ⟨rfl, rfl, ?_, ?_⟩ <;> rfl

/-- C7 witness: at the concrete playing state sW7 with the building menu
open, the click is forwarded and consumed. -/
theorem mouse_click_routing_witness :
    (sW7.game_state = "playing" ∧
      (sW7.ui.building_menu_open ∨ sW7.ui.building_mode ∨
        sW7.ui.ship_inventory_open ∨ sW7.ui.building_interaction_open)) ∧
    (step sW7 (Event.mouseButtonDown 1) (0, 0)).2
      = [Effect.uiClick (0, 0) 1] := by
  have h : sW7.game_state = "playing" ∧
      (sW7.ui.building_menu_open ∨ sW7.ui.building_mode ∨
        sW7.ui.ship_inventory_open ∨ sW7.ui.building_interaction_open) :=
    ⟨rfl, Or.inl rfl⟩
  exact ⟨h, (mouse_click_routing sW7 (0, 0) 1).1 h⟩

theorem interactFeedback_messages (r : Bool) (nearby : List NearbyObj)
    (u : UIState) :
    (interactFeedback r nearby u).messages =
      u.messages ++ tableMsgs (specOutcomeTable nearby.head? r) := by
  cases nearby with
  | nil =>
      simp [interactFeedback, specOutcomeTable, tableMsgs, add_feedback_message]
  | cons obj rest =>
      rcases obj with ⟨k, t⟩
      cases k <;> cases r <;>
        simp only [interactFeedback, specOutcomeTable, tableMsgs,
          add_feedback_message, List.head?_cons] <;>
        split_ifs <;> simp_all

/-- C1: while playing, an interact-key press appends to the feedback list
exactly the message row the section 4.3 outcome table assigns to the
nearest nearby object (none when the list is empty) and the interact()
result, under the English-to-code-string dictionary; the Resource-with-
success row appends nothing (the documented dead branch). -/
theorem interact_key_matches_outcome_table (s : GameSt) (mpos : ℤ × ℤ)
    (h : s.game_state = "playing") :
    (step s (Event.keyDown Key.e) mpos).1.ui.messages =
      s.ui.messages ++
        tableMsgs (specOutcomeTable s.player.nearby_objects.head?
          s.player.interact_result) := by
  unfold step handleKeyDown playingKeys escStep
  simp [h, interactFeedback_messages]

/-- C1 witness: at the concrete state sW1 (nearest object a Market
building, interact succeeding) the emitted message is the resources-sold
Success row. -/
theorem interact_key_matches_outcome_table_witness :
    sW1.game_state = "playing" ∧
    (step sW1 (Event.keyDown Key.e) (0, 0)).1.ui.messages
      = [⟨"Ressourcen verkauft!", "success", FEEDBACK_LIFETIME⟩] :=
  ⟨rfl, (interact_key_matches_outcome_table sW1 (0, 0) rfl).trans rfl⟩

/-- C10: while playing, an interact-key press invokes player.interact()
exactly once, and the call is recorded before the nearby-objects list is
examined; in particular it still happens when the list is empty and the
nothing-nearby Info message is the feedback. -/
theorem interact_called_once_before_examination (s : GameSt) (mpos : ℤ × ℤ)
    (h : s.game_state = "playing") :
    (step s (Event.keyDown Key.e) mpos).2
      = [Effect.playerInteract, Effect.readNearby] ∧
    ((step s (Event.keyDown Key.e) mpos).2.count Effect.playerInteract = 1) ∧
    (s.player.nearby_objects = [] →
      (step s (Event.keyDown Key.e) mpos).1.ui.messages =
        s.ui.messages ++
          [⟨"Nichts in der Nähe!", "info", FEEDBACK_LIFETIME⟩]) := by
  refine ⟨?_, ?_, ?_⟩
  · unfold step handleKeyDown playingKeys escStep
    simp [h]
  · unfold step handleKeyDown playingKeys escStep
    simp [h]
  · intro hn
    unfold step handleKeyDown playingKeys escStep
    simp [h, hn, interactFeedback, add_feedback_message]

/-- C10 witness: at the concrete state sW4 (empty nearby list) the
interact call is still recorded first and the Info message is emitted. -/
theorem interact_called_once_before_examination_witness :
    sW4.game_state = "playing" ∧ sW4.player.nearby_objects = [] ∧
    (step sW4 (Event.keyDown Key.e) (0, 0)).2
      = [Effect.playerInteract, Effect.readNearby] ∧
    (step sW4 (Event.keyDown Key.e) (0, 0)).1.ui.messages
      = [⟨"Nichts in der Nähe!", "info", FEEDBACK_LIFETIME⟩] := by
  have h := interact_called_once_before_examination sW4 (0, 0) rfl
  exact ⟨rfl, rfl, h.1, (h.2.2 rfl).trans rfl⟩

theorem findNearest_isSome (px pz : ℝ) (l : List Building) (q : Building × ℝ) :
    ∃ r, findNearest px pz l (some q) = some r := by
  induction l generalizing q with
  | nil => exact ⟨q, rfl⟩
  | cons b rest ih =>
      rw [findNearest]
      split
      · exact ih _
      · exact ih _

theorem findNearest_acc_min (px pz : ℝ) (l : List Building) :
    ∀ (q : Building × ℝ) (b : Building) (d : ℝ),
      findNearest px pz l (some q) = some (b, d) →
      (b = q.1 ∧ d = q.2) ∨ d < q.2 := by
  induction l with
  | nil =>
      intro q b d h
      rw [findNearest] at h
      rcases q with ⟨qb, qd⟩
      simp only [Option.some.injEq, Prod.mk.injEq] at h
      exact Or.inl ⟨h.1.symm, h.2.symm⟩
  | cons c rest ih =>
      intro q b d h
      rw [findNearest] at h
      by_cases hc : bdist px pz c < q.2 ∧ bdist px pz c < 50
      · rw [if_pos hc] at h
        rcases ih (c, bdist px pz c) b d h with ⟨hb, hd⟩ | hd
        · exact Or.inr (by rw [hd]; exact hc.1)
        · exact Or.inr (hd.trans hc.1)
      · rw [if_neg hc] at h
        exact ih q b d h

theorem findNearest_shape (px pz : ℝ) (l : List Building) :
    ∀ (best : Option (Building × ℝ)) (b : Building) (d : ℝ),
      findNearest px pz l best = some (b, d) →
      best = some (b, d) ∨ (b ∈ l ∧ d = bdist px pz b ∧ d < 50) := by
  induction l with
  | nil =>
      intro best b d h
      rw [findNearest] at h
      exact Or.inl h
  | cons c rest ih =>
      intro best b d h
      cases best with
      | none =>
          rw [findNearest] at h
          by_cases hc : bdist px pz c < 50
          · rw [if_pos hc] at h
            rcases ih _ b d h with heq | ⟨hm, hd, h50⟩
            · simp only [Option.some.injEq, Prod.mk.injEq] at heq
              rcases heq with ⟨hb, hd⟩
              subst hb
              exact Or.inr ⟨List.mem_cons_self c rest, hd.symm,
                by rw [← hd]; exact hc⟩
            · exact Or.inr ⟨List.mem_cons_of_mem c hm, hd, h50⟩
          · rw [if_neg hc] at h
            rcases ih _ b d h with heq | ⟨hm, hd, h50⟩
            · exact absurd heq (by simp)
            · exact Or.inr ⟨List.mem_cons_of_mem c hm, hd, h50⟩
      | some q =>
          rw [findNearest] at h
          by_cases hc : bdist px pz c < q.2 ∧ bdist px pz c < 50
          · rw [if_pos hc] at h
            rcases ih _ b d h with heq | ⟨hm, hd, h50⟩
            · simp only [Option.some.injEq, Prod.mk.injEq] at heq
              rcases heq with ⟨hb, hd⟩
              subst hb
              exact Or.inr ⟨List.mem_cons_self c rest, hd.symm,
                by rw [← hd]; exact hc.2⟩
            · exact Or.inr ⟨List.mem_cons_of_mem c hm, hd, h50⟩
          · rw [if_neg hc] at h
            rcases ih _ b d h with heq | ⟨hm, hd, h50⟩
            · exact Or.inl heq
            · exact Or.inr ⟨List.mem_cons_of_mem c hm, hd, h50⟩

theorem findNearest_min_aux (px pz : ℝ) (l : List Building) :
    ∀ (best : Option (Building × ℝ)) (b : Building) (d : ℝ),
      findNearest px pz l best = some (b, d) →
      ∀ c ∈ l, bdist px pz c < 50 → d ≤ bdist px pz c := by
  induction l with
  | nil =>
      intro best b d _ c hc
      exact absurd hc (List.not_mem_nil c)
  | cons a rest ih =>
      intro best b d h c hc h50
      cases best with
      | none =>
          rw [findNearest] at h
          rcases List.mem_cons.mp hc with hca | hcr
          · subst hca
            rw [if_pos h50] at h
            rcases findNearest_acc_min px pz rest _ b d h with ⟨_, hd⟩ | hd
            · exact le_of_eq hd
            · exact le_of_lt hd
          · exact ih _ b d h c hcr h50
      | some q =>
          rw [findNearest] at h
          rcases List.mem_cons.mp hc with hca | hcr
          · subst hca
            by_cases hq : bdist px pz c < q.2 ∧ bdist px pz c < 50
            · rw [if_pos hq] at h
              rcases findNearest_acc_min px pz rest _ b d h with ⟨_, hd⟩ | hd
              · exact le_of_eq hd
              · exact le_of_lt hd
            · rw [if_neg hq] at h
              have hq2 : q.2 ≤ bdist px pz c := by
                by_contra hlt
                push_neg at hlt
                exact hq ⟨hlt, h50⟩
              rcases findNearest_acc_min px pz rest q b d h with ⟨_, hd⟩ | hd
              · exact (le_of_eq hd).trans hq2
              · exact le_of_lt (lt_of_lt_of_le hd hq2)
          · exact ih _ b d h c hcr h50

theorem findNearest_earliest_aux (px pz : ℝ) (l : List Building) :
    ∀ (best : Option (Building × ℝ)) (b : Building) (d : ℝ),
      findNearest px pz l best = some (b, d) →
      best = some (b, d) ∨
        ∃ l1 l2, l = l1 ++ b :: l2 ∧
          ∀ c ∈ l1, bdist px pz c < 50 → d < bdist px pz c := by
  induction l with
  | nil =>
      intro best b d h
      rw [findNearest] at h
      exact Or.inl h
  | cons a rest ih =>
      intro best b d h
      cases best with
      | none =>
          rw [findNearest] at h
          by_cases ha : bdist px pz a < 50
          · rw [if_pos ha] at h
            rcases findNearest_acc_min px pz rest _ b d h with ⟨hb, hd⟩ | hd
            · refine Or.inr ⟨[], rest, by simp [hb], ?_⟩
              intro c hc
              exact absurd hc (List.not_mem_nil c)
            · rcases ih _ b d h with heq | ⟨l1, l2, hsplit, hl1⟩
              · simp only [Option.some.injEq, Prod.mk.injEq] at heq
                rw [heq.2] at hd
                exact absurd hd (lt_irrefl _)
              · refine Or.inr ⟨a :: l1, l2, by rw [hsplit]; rfl, ?_⟩
                intro c hc hc50
                rcases List.mem_cons.mp hc with hca | hcl
                · subst hca; exact hd
                · exact hl1 c hcl hc50
          · rw [if_neg ha] at h
            rcases ih _ b d h with heq | ⟨l1, l2, hsplit, hl1⟩
            · exact absurd heq (by simp)
            · refine Or.inr ⟨a :: l1, l2, by rw [hsplit]; rfl, ?_⟩
              intro c hc hc50
              rcases List.mem_cons.mp hc with hca | hcl
              · subst hca; exact absurd hc50 ha
              · exact hl1 c hcl hc50
      | some q =>
          rw [findNearest] at h
          by_cases hq : bdist px pz a < q.2 ∧ bdist px pz a < 50
          · rw [if_pos hq] at h
            rcases findNearest_acc_min px pz rest _ b d h with ⟨hb, hd⟩ | hd
            · refine Or.inr ⟨[], rest, by simp [hb], ?_⟩
              intro c hc
              exact absurd hc (List.not_mem_nil c)
            · rcases ih _ b d h with heq | ⟨l1, l2, hsplit, hl1⟩
              · simp only [Option.some.injEq, Prod.mk.injEq] at heq
                rw [heq.2] at hd
                exact absurd hd (lt_irrefl _)
              · refine Or.inr ⟨a :: l1, l2, by rw [hsplit]; rfl, ?_⟩
                intro c hc hc50
                rcases List.mem_cons.mp hc with hca | hcl
                · subst hca; exact hd
                · exact hl1 c hcl hc50
          · rw [if_neg hq] at h
            rcases findNearest_acc_min px pz rest q b d h with ⟨hb, hd⟩ | hd
            · refine Or.inl ?_
              rw [hb, hd, Prod.mk.eta]
            · rcases ih _ b d h with heq | ⟨l1, l2, hsplit, hl1⟩
              · simp only [Option.some.injEq] at heq
                rw [heq] at hd
                exact absurd hd (lt_irrefl _)
              · refine Or.inr ⟨a :: l1, l2, by rw [hsplit]; rfl, ?_⟩
                intro c hc hc50
                rcases List.mem_cons.mp hc with hca | hcl
                · subst hca
                  have hq2 : q.2 ≤ bdist px pz c := by
                    by_contra hlt
                    push_neg at hlt
                    exact hq ⟨hlt, hc50⟩
                  exact lt_of_lt_of_le hd hq2
                · exact hl1 c hcl hc50

theorem findNearest_none_iff (px pz : ℝ) (l : List Building) :
    findNearest px pz l none = none ↔
      ∀ c ∈ l, ¬ bdist px pz c < 50 := by
  induction l with
  | nil => simp [findNearest]
  | cons a rest ih =>
      rw [findNearest]
      by_cases ha : bdist px pz a < 50
      · rw [if_pos ha]
        constructor
        · intro h
          rcases findNearest_isSome px pz rest (a, bdist px pz a) with ⟨r, hr⟩
          rw [hr] at h
          cases h
        · intro h
          exact absurd ha (h a (List.mem_cons_self a rest))
      · rw [if_neg ha]
        rw [ih]
        simp only [List.forall_mem_cons]
        constructor
        · intro h
          exact ⟨ha, h⟩
        · intro h
          exact h.2

/-- C4 (amended: eligibility requires planar distance strictly below 50,
not at most 50): while playing, the nearby-building key scans the world's
buildings with planar Euclidean distance; when some building lies strictly
within 50 units the interaction panel opens bound to an eligible building
of minimal distance, every strictly earlier enumerated in-range building
being strictly farther (ties keep the earliest); when no building lies
strictly within 50 units the Warning message is emitted and the panel flag
and binding are unchanged. -/
theorem nearby_building_key_behavior (s : GameSt) (mpos : ℤ × ℤ)
    (h : s.game_state = "playing") :
    ((∃ c ∈ s.world.buildings, bdist s.player.x s.player.z c < 50) →
      ∃ b l1 l2, s.world.buildings = l1 ++ b :: l2 ∧
        (step s (Event.keyDown Key.b) mpos).1.ui.building_interaction_open
          = true ∧
        (step s (Event.keyDown Key.b) mpos).1.ui.interaction_building
          = some b ∧
        bdist s.player.x s.player.z b < 50 ∧
        (∀ c ∈ s.world.buildings, bdist s.player.x s.player.z c < 50 →
          bdist s.player.x s.player.z b ≤ bdist s.player.x s.player.z c) ∧
        (∀ c ∈ l1, bdist s.player.x s.player.z c < 50 →
          bdist s.player.x s.player.z b < bdist s.player.x s.player.z c)) ∧
    ((∀ c ∈ s.world.buildings, ¬ bdist s.player.x s.player.z c < 50) →
      (step s (Event.keyDown Key.b) mpos).1.ui.building_interaction_open
        = s.ui.building_interaction_open ∧
      (step s (Event.keyDown Key.b) mpos).1.ui.interaction_building
        = s.ui.interaction_building ∧
      (step s (Event.keyDown Key.b) mpos).1.ui.messages
        = s.ui.messages ++
            [⟨"Kein Gebäude in der Nähe", "warning", FEEDBACK_LIFETIME⟩]) := by
  cases hf : findNearest s.player.x s.player.z s.world.buildings none with
  | none =>
      constructor
      · rintro ⟨c, hc, h50⟩
        exact absurd h50 ((findNearest_none_iff _ _ _).mp hf c hc)
      · intro _
        unfold step handleKeyDown playingKeys escStep
        simp [h, hf, add_feedback_message]
  | some q =>
      rcases q with ⟨b0, d0⟩
      have hshape :=
        findNearest_shape s.player.x s.player.z s.world.buildings none b0 d0 hf
      rcases hshape with heq | ⟨hm, hd, h50⟩
      · exact absurd heq (by simp)
      constructor
      · intro _
        have hmin := findNearest_min_aux s.player.x s.player.z
          s.world.buildings none b0 d0 hf
        have hear := findNearest_earliest_aux s.player.x s.player.z
          s.world.buildings none b0 d0 hf
        rcases hear with heq2 | ⟨l1, l2, hsplit, hl1⟩
        · exact absurd heq2 (by simp)
        refine ⟨b0, l1, l2, hsplit, ?_, ?_, ?_, ?_, ?_⟩
        · unfold step handleKeyDown playingKeys escStep
          simp [h, hf, toggle_building_interaction]
        · unfold step handleKeyDown playingKeys escStep
          simp [h, hf, toggle_building_interaction]
        · rw [← hd]
          exact h50
        · intro c hc hc50
          rw [← hd]
          exact hmin c hc hc50
        · intro c hc hc50
          rw [← hd]
          exact hl1 c hc hc50
      · intro hnone
        have hn : findNearest s.player.x s.player.z s.world.buildings none
            = none := (findNearest_none_iff _ _ _).mpr hnone
        rw [hn] at hf
        exact Option.noConfusion hf

/-- C4 witness: at the concrete state sW4 with no buildings, the Warning
message is emitted and the interaction panel stays closed. -/
theorem nearby_building_key_behavior_witness :
    sW4.game_state = "playing" ∧
    (∀ c ∈ sW4.world.buildings, ¬ bdist sW4.player.x sW4.player.z c < 50) ∧
    (step sW4 (Event.keyDown Key.b) (0, 0)).1.ui.building_interaction_open
      = false ∧
    (step sW4 (Event.keyDown Key.b) (0, 0)).1.ui.messages
      = [⟨"Kein Gebäude in der Nähe", "warning", FEEDBACK_LIFETIME⟩] := by
  have hn : ∀ c ∈ sW4.world.buildings,
      ¬ bdist sW4.player.x sW4.player.z c < 50 := by
    intro c hc
    simp [sW4, gameInit, wEmpty] at hc
  have h := (nearby_building_key_behavior sW4 (0, 0) rfl).2 hn
  exact ⟨rfl, hn, h.1.trans rfl, h.2.2.trans rfl⟩

/-- C4 counterexample: in sC4 the only building lies at planar distance
exactly 50, hence within the inclusive 50-unit radius the claim asserts,
yet main.py line 90 compares strictly: the interaction panel is not opened
and the no-building Warning message is emitted instead. -/
theorem nearby_building_key_radius_cex :
    cexBuilding ∈ sC4.world.buildings ∧
    bdist sC4.player.x sC4.player.z cexBuilding ≤ 50 ∧
    (step sC4 (Event.keyDown Key.b) (0, 0)).1.ui.building_interaction_open
      = false ∧
    (step sC4 (Event.keyDown Key.b) (0, 0)).1.ui.messages
      = [⟨"Kein Gebäude in der Nähe", "warning", FEEDBACK_LIFETIME⟩] := by
  have hb : bdist sC4.player.x sC4.player.z cexBuilding = 50 := by
    show Real.sqrt (((0 : ℝ) - 50) ^ 2 + ((0 : ℝ) - 0) ^ 2) = 50
    rw [show ((0 : ℝ) - 50) ^ 2 + ((0 : ℝ) - 0) ^ 2 = 50 ^ 2 by ring]
    exact Real.sqrt_sq (by norm_num)
  have h50 : ¬ bdist sC4.player.x sC4.player.z cexBuilding < 50 := by
    rw [hb]
    exact lt_irrefl 50
  have hf : findNearest sC4.player.x sC4.player.z sC4.world.buildings none
      = none := by
    have hbl : sC4.world.buildings = [cexBuilding] := rfl
    rw [hbl, findNearest, if_neg h50, findNearest]
  have hg : sC4.game_state = "playing" := rfl
  have hm0 : sC4.ui.messages = [] := rfl
  have hi0 : sC4.ui.building_interaction_open = false := rfl
  refine ⟨?_, ?_, ?_, ?_⟩
  · show cexBuilding ∈ [cexBuilding]
    exact List.mem_cons_self _ _
  · rw [hb]
  · unfold step handleKeyDown playingKeys escStep
    simp [hg, hf, add_feedback_message, hi0]
  · unfold step handleKeyDown playingKeys escStep
    simp [hg, hf, add_feedback_message, hm0]

theorem playingKeys_core (s : GameSt) (k : Key) :
    (playingKeys s k).1.game_state = s.game_state ∧
    (playingKeys s k).1.mouse_grab = s.mouse_grab ∧
    (playingKeys s k).1.mouse_visible = s.mouse_visible := by
  unfold playingKeys
  by_cases h : s.game_state = "playing"
  · rw [if_pos h]
    cases k <;>
      first
      | exact ⟨rfl, rfl, rfl⟩
      | (cases hf : findNearest s.player.x s.player.z s.world.buildings none
           <;> exact ⟨rfl, rfl, rfl⟩)
  · rw [if_neg h]
    exact ⟨rfl, rfl, rfl⟩

theorem handleMouseButton_core (s : GameSt) (mpos : ℤ × ℤ) (button : Nat) :
    (handleMouseButton s mpos button).1.game_state = s.game_state ∧
    (handleMouseButton s mpos button).1.mouse_grab = s.mouse_grab ∧
    (handleMouseButton s mpos button).1.mouse_visible = s.mouse_visible := by
  unfold handleMouseButton
  split
  · exact ⟨rfl, rfl, rfl⟩
  · exact ⟨rfl, rfl, rfl⟩

theorem handleMouseMotion_core (s : GameSt) (rel : ℤ × ℤ) :
    (handleMouseMotion s rel).1.game_state = s.game_state ∧
    (handleMouseMotion s rel).1.mouse_grab = s.mouse_grab ∧
    (handleMouseMotion s rel).1.mouse_visible = s.mouse_visible := by
  unfold handleMouseMotion
  split
  · exact ⟨rfl, rfl, rfl⟩
  · exact ⟨rfl, rfl, rfl⟩

theorem captureInv_of_core (s t : GameSt)
    (hg : t.game_state = s.game_state) (hgr : t.mouse_grab = s.mouse_grab)
    (hv : t.mouse_visible = s.mouse_visible) (h : captureInv s) :
    captureInv t := by
  constructor
  · intro hp
    rw [hg] at hp
    rcases h.1 hp with ⟨a, b⟩
    exact ⟨hgr.trans a, hv.trans b⟩
  · intro hp
    rw [hg] at hp
    rcases h.2 hp with ⟨a, b⟩
    exact ⟨hgr.trans a, hv.trans b⟩

theorem escStep_capture (s : GameSt) (h : captureInv s) (k : Key) :
    captureInv (escStep s k) := by
  unfold escStep
  by_cases hk : k = Key.escape
  · rw [if_pos hk]
    by_cases hp : s.game_state = "playing"
    · rw [if_pos hp]
      constructor
      · intro hq
        have hq2 : ("paused" : String) = "playing" := hq
        exact absurd hq2 (by decide)
      · intro _
        exact ⟨rfl, rfl⟩
    · rw [if_neg hp]
      constructor
      · intro _
        exact ⟨rfl, rfl⟩
      · intro hq
        exact absurd rfl hq
  · rw [if_neg hk]
    exact h

theorem captureInv_step (s : GameSt) (e : Event) (mpos : ℤ × ℤ)
    (h : captureInv s) : captureInv (step s e mpos).1 := by
  cases e with
  | quit => exact captureInv_of_core s _ rfl rfl rfl h
  | keyDown k =>
      exact captureInv_of_core (escStep s k) _
        ((playingKeys_core (escStep s k) k).1)
        ((playingKeys_core (escStep s k) k).2.1)
        ((playingKeys_core (escStep s k) k).2.2)
        (escStep_capture s h k)
  | mouseButtonDown button =>
      exact captureInv_of_core s _
        ((handleMouseButton_core s mpos button).1)
        ((handleMouseButton_core s mpos button).2.1)
        ((handleMouseButton_core s mpos button).2.2) h
  | mouseMotion rel =>
      exact captureInv_of_core s _
        ((handleMouseMotion_core s rel).1)
        ((handleMouseMotion_core s rel).2.1)
        ((handleMouseMotion_core s rel).2.2) h
  | otherEvent => exact captureInv_of_core s _ rfl rfl rfl h

theorem captureInv_run (s : GameSt) (es : List (Event × ℤ × ℤ))
    (h : captureInv s) : captureInv (run s es) := by
  induction es generalizing s with
  | nil => exact h
  | cons em rest ih =>
      rw [run]
      exact ih _ (captureInv_step s em.1 em.2 h)

/-- C5: starting from the initial state (playing, mouse grabbed and
hidden), after any sequence of processed events the mouse is grabbed and
hidden exactly when the mode is playing, and any non-playing mode has the
cursor released and visible. -/
theorem mouse_capture_tracks_mode (w : WorldSt) (p : PlayerSt)
    (es : List (Event × ℤ × ℤ)) :
    captureInv (gameInit w p) ∧ captureInv (run (gameInit w p) es) := by
  have h0 : captureInv (gameInit w p) :=
    ⟨fun _ => ⟨rfl, rfl⟩, fun hq => absurd rfl hq⟩
  exact ⟨h0, captureInv_run _ es h0⟩

/-- C5 witness: after one ESC event the mode is paused and the cursor is
released and visible, as the invariant demands. -/
theorem mouse_capture_tracks_mode_witness :
    captureInv (run (gameInit wEmpty pIdle)
      [(Event.keyDown Key.escape, (0, 0))]) ∧
    (run (gameInit wEmpty pIdle)
      [(Event.keyDown Key.escape, (0, 0))]).game_state = "paused" ∧
    (run (gameInit wEmpty pIdle)
      [(Event.keyDown Key.escape, (0, 0))]).mouse_visible = true ∧
    (run (gameInit wEmpty pIdle)
      [(Event.keyDown Key.escape, (0, 0))]).mouse_grab = false :=
  ⟨(mouse_capture_tracks_mode wEmpty pIdle _).2, rfl, rfl, rfl⟩

theorem escStep_mode (s : GameSt) (k : Key) :
    (escStep s k).game_state =
      if k = Key.escape then
        (if s.game_state = "playing" then "paused" else "playing")
      else s.game_state := by
  unfold escStep
  by_cases hk : k = Key.escape
  · rw [if_pos hk, if_pos hk]
    by_cases hp : s.game_state = "playing"
    · rw [if_pos hp, if_pos hp]
    · rw [if_neg hp, if_neg hp]
  · rw [if_neg hk, if_neg hk]

theorem mode_mem_step (s : GameSt) (e : Event) (mpos : ℤ × ℤ)
    (h : s.game_state = "playing" ∨ s.game_state = "paused") :
    (step s e mpos).1.game_state = "playing" ∨
      (step s e mpos).1.game_state = "paused" := by
  cases e with
  | quit => exact h
  | keyDown k =>
      have hm : (step s (Event.keyDown k) mpos).1.game_state
          = (escStep s k).game_state := (playingKeys_core (escStep s k) k).1
      rw [hm, escStep_mode]
      by_cases hk : k = Key.escape
      · rw [if_pos hk]
        by_cases hp : s.game_state = "playing"
        · rw [if_pos hp]
          exact Or.inr rfl
        · rw [if_neg hp]
          exact Or.inl rfl
      · rw [if_neg hk]
        exact h
  | mouseButtonDown button =>
      have hm : (step s (Event.mouseButtonDown button) mpos).1.game_state
          = s.game_state := (handleMouseButton_core s mpos button).1
      rw [hm]
      exact h
  | mouseMotion rel =>
      have hm : (step s (Event.mouseMotion rel) mpos).1.game_state
          = s.game_state := (handleMouseMotion_core s rel).1
      rw [hm]
      exact h
  | otherEvent => exact h

theorem mode_mem_run (s : GameSt) (es : List (Event × ℤ × ℤ))
    (h : s.game_state = "playing" ∨ s.game_state = "paused") :
    (run s es).game_state = "playing" ∨ (run s es).game_state = "paused" := by
  induction es generalizing s with
  | nil => exact h
  | cons em rest ih =>
      rw [run]
      exact ih _ (mode_mem_step s em.1 em.2 h)

/-- C6: in any reachable state, no processed event other than the ESC
key-down changes the game mode; an ESC key-down maps playing to paused and
any other mode to playing, and the reachable modes are exactly playing and
paused, so the toggle flips between Playing and Paused. -/
theorem pause_toggle_only_mode_transition (w : WorldSt) (p : PlayerSt)
    (es : List (Event × ℤ × ℤ)) (e : Event) (mpos : ℤ × ℤ) :
    ((step (run (gameInit w p) es) e mpos).1.game_state
        ≠ (run (gameInit w p) es).game_state →
      e = Event.keyDown Key.escape) ∧
    (e = Event.keyDown Key.escape →
      (step (run (gameInit w p) es) e mpos).1.game_state =
        (if (run (gameInit w p) es).game_state = "playing" then "paused"
         else "playing")) ∧
    ((run (gameInit w p) es).game_state = "playing" ∨
      (run (gameInit w p) es).game_state = "paused") := by
  refine ⟨?_, ?_, ?_⟩
  · intro hne
    cases e with
    | quit => exact absurd rfl hne
    | otherEvent => exact absurd rfl hne
    | mouseButtonDown button =>
        exact absurd ((handleMouseButton_core (run (gameInit w p) es)
          mpos button).1) hne
    | mouseMotion rel =>
        exact absurd ((handleMouseMotion_core (run (gameInit w p) es)
          rel).1) hne
    | keyDown k =>
        by_cases hk : k = Key.escape
        · rw [hk]
        · exfalso
          apply hne
          have hm := (playingKeys_core (escStep (run (gameInit w p) es) k) k).1
          rw [escStep_mode, if_neg hk] at hm
          exact hm
  · intro he
    subst he
    have hm := (playingKeys_core
      (escStep (run (gameInit w p) es) Key.escape) Key.escape).1
    rw [escStep_mode, if_pos rfl] at hm
    exact hm
  · exact mode_mem_run _ es (Or.inl rfl)

/-- C6 witness: one ESC key-down from the initial state moves the mode from
playing to paused. -/
theorem pause_toggle_only_mode_transition_witness :
    Event.keyDown Key.escape = Event.keyDown Key.escape ∧
    (step (run (gameInit wEmpty pIdle) []) (Event.keyDown Key.escape)
      (0, 0)).1.game_state = "paused" := by
  have h := (pause_toggle_only_mode_transition wEmpty pIdle []
    (Event.keyDown Key.escape) (0, 0)).2.1 rfl
  refine ⟨rfl, ?_⟩
  rw [h]
  rfl

end FirstPersonRTS
